import Mathlib

/-!
Verification development for the jot backend ingestion and note-structuring
pipeline.  The TypeScript sources are shallowly embedded: pure helpers become
Lean functions over `String` / `List Nat` (byte buffers), and every external
call (OpenAI chat or Whisper endpoint, Supabase row store, Upstash Redis) is
represented by an explicit oracle value describing that call's outcome, so
each route handler or pipeline stage becomes a total function of its inputs
and oracles.  JavaScript semantics are preserved where they matter: `||`
falsiness on strings and numbers, `String.prototype.endsWith`, `split('/')`,
Node `Buffer.toString('hex' / 'ascii')`, and truthiness checks on possibly
absent fields (absence is modelled with `Option`).
-/

/-! ### JavaScript string primitives over `String.data` -/

/-- JS `s.endsWith('?')` for the one-character suffix used by the renderer. -/
def jsEndsWithQuestion (s : String) : Bool :=
  s.data.getLast? == some '?'

/-- JS `a || b` where `a` is a possibly `undefined` string: empty string and
`undefined` are falsy. -/
def jsOrString (a : Option String) (b : String) : String :=
  match a with
  | none => b
  | some s => if s = "" then b else s

/-- Split a character list on a separator character (JS `split`). -/
def splitOnChar (sep : Char) : List Char → List (List Char)
  | [] => [[]]
  | c :: rest =>
    let r := splitOnChar sep rest
    if c = sep then [] :: r
    else
      match r with
      | [] => [[c]]
      | g :: gs => (c :: g) :: gs

/-- JS `mime.split('/')` (kernel-reducible, unlike `String.splitOn`). -/
def jsSplitSlash (s : String) : List String :=
  (splitOnChar '/' s.data).map String.mk

/-- JS `s.toLowerCase()` restricted to the ASCII data this code handles. -/
def jsToLower (s : String) : String :=
  String.mk (s.data.map Char.toLower)

/-- JS `s.startsWith(p)`. -/
def jsStartsWith (s p : String) : Bool :=
  p.data.isPrefixOf s.data

/-- Substring containment on character lists (JS `String.prototype.includes`). -/
def containsSub (needle : List Char) : List Char → Bool
  | [] => needle.isEmpty
  | c :: rest => needle.isPrefixOf (c :: rest) || containsSub needle rest

/-! ### Outline data model

`outlineJsonSchema` from `lib/validation.ts`: tags are drawn from a fixed
vocabulary and `lang` from a fixed enum, so both are closed inductive types;
a value of type `OutlineJson` is by construction schema-valid. -/

/-- Tag vocabulary of `outlineJsonSchema` (`z.enum`). -/
inductive Tag where
  | work | creative | health | study | life
  deriving DecidableEq, Repr

/-- Language enum of `outlineJsonSchema`. -/
inductive Lang where
  | en | zh | mixed
  deriving DecidableEq, Repr

/-- One `next_steps` entry: text plus nullable due date. -/
structure NextStep where
  text : String
  due : Option String
  deriving DecidableEq, Repr

/-- The validated outline object produced by `structureOutline`. -/
structure OutlineJson where
  title : String
  highlights : List String
  insights : List String
  open_questions : List String
  next_steps : List NextStep
  tags : List Tag
  lang : Lang
  deriving DecidableEq, Repr

/-! ### Rich-document (ProseMirror) model

The renderer only ever emits the fixed vocabulary `doc / heading / paragraph /
bulletList / taskList / listItem / taskItem / text`; the `other` constructor
represents any out-of-vocabulary node type that the loosely validated primary
(LLM) rendering path may return (`lib/openai.ts` only checks that the parsed
JSON has a truthy `type`). -/

inductive ENode where
  | heading (level : Nat) (content : List ENode)
  | paragraph (content : List ENode)
  | bulletList (content : List ENode)
  | taskList (content : List ENode)
  | listItem (content : List ENode)
  | taskItem (checked : Bool) (content : List ENode)
  | text (s : String)
  | other (ty : String) (content : List ENode)

/-- Root editor document: `{ type, content }` (`ty` stands for the JSON field
`type`, a Lean keyword). -/
structure EditorDoc where
  ty : String
  content : List ENode

mutual

/-- A node lies in the fixed rich-document vocabulary, recursively. -/
def validNode : ENode → Bool
  | .heading _ c => validNodes c
  | .paragraph c => validNodes c
  | .bulletList c => validNodes c
  | .taskList c => validNodes c
  | .listItem c => validNodes c
  | .taskItem _ c => validNodes c
  | .text _ => true
  | .other _ _ => false

/-- All nodes of a list lie in the fixed vocabulary. -/
def validNodes : List ENode → Bool
  | [] => true
  | n :: rest => validNode n && validNodes rest

end

/-- A valid rich-document tree: a `doc` root whose nodes all come from the
fixed vocabulary. -/
def validDoc (d : EditorDoc) : Bool :=
  d.ty = "doc" && validNodes d.content

mutual

/-- Concatenated text of all `text` descendants of a node. -/
def textOf : ENode → String
  | .heading _ c => textOfList c
  | .paragraph c => textOfList c
  | .bulletList c => textOfList c
  | .taskList c => textOfList c
  | .listItem c => textOfList c
  | .taskItem _ c => textOfList c
  | .text s => s
  | .other _ c => textOfList c

/-- Concatenated text of a node list. -/
def textOfList : List ENode → String
  | [] => ""
  | n :: rest => textOf n ++ textOfList rest

end

/-! ### Content Structurer (`lib/openai.ts`) -/

/-- Outcome of the chat-completion call made by `structureOutline`, together
with the subsequent local parsing/validation steps: the API call throwing,
`choices[0]?.message?.content` being empty/absent, `JSON.parse` throwing, the
zod `outlineJsonSchema.parse` rejecting, or a schema-valid outline. -/
inductive StructureUpstream where
  | apiError
  | noContent
  | badJson
  | invalidSchema
  | valid (o : OutlineJson)
  deriving DecidableEq, Repr

/-- The minimal fallback outline returned by `structureOutline`'s catch block. -/
def fallbackOutline : OutlineJson :=
  { title := "Untitled Note"
    highlights := ["Transcript processing failed"]
    insights := []
    open_questions := []
    next_steps := []
    tags := []
    lang := .en }

/-- `structureOutline` of `lib/openai.ts`: every failure path of the try block
lands in the catch block, which returns `fallbackOutline`.  The transcript text
only feeds the prompt (after truncation to 8000 characters), so the result is
fully determined by the upstream outcome. -/
def structureOutline (_transcriptText : String) (u : StructureUpstream) : OutlineJson :=
  match u with
  | .valid o => o
  | _ => fallbackOutline

/-- Outcome of the chat-completion call made by `outlineToEditorJson` plus the
local `JSON.parse`: `parsed` carries the successfully parsed JSON document
(arbitrary node types, arbitrary root `type` string). -/
inductive RenderUpstream where
  | apiError
  | noContent
  | badJson
  | parsed (d : EditorDoc)

/-- Coerce an open question to end with `'?'`
(`q.endsWith('?') ? q : q + '?'`). -/
def coerceQuestion (q : String) : String :=
  if jsEndsWithQuestion q then q else q ++ "?"

/-- `createFallbackEditorJson` of `lib/openai.ts`: deterministic local
renderer; its section pushes are modelled as list concatenation. -/
def createFallbackEditorJson (outline : OutlineJson) : EditorDoc :=
  { ty := "doc"
    content :=
      [ENode.heading 1 [ENode.text outline.title]]
      ++ (if outline.highlights.length > 0 then
            [ENode.heading 2 [ENode.text "Highlights"],
             ENode.bulletList (outline.highlights.map (fun h =>
               ENode.listItem [ENode.paragraph [ENode.text h]]))]
          else [])
      ++ (if outline.insights.length > 0 then
            [ENode.heading 2 [ENode.text "Insights"],
             ENode.bulletList (outline.insights.map (fun i =>
               ENode.listItem [ENode.paragraph [ENode.text i]]))]
          else [])
      ++ (if outline.open_questions.length > 0 then
            [ENode.heading 2 [ENode.text "Open Questions"],
             ENode.bulletList (outline.open_questions.map (fun q =>
               ENode.listItem [ENode.paragraph [ENode.text (coerceQuestion q)]]))]
          else [])
      ++ (if outline.next_steps.length > 0 then
            [ENode.heading 2 [ENode.text "Next Steps"],
             ENode.taskList (outline.next_steps.map (fun step =>
               ENode.taskItem false [ENode.paragraph [ENode.text step.text]]))]
          else []) }

/-- `outlineToEditorJson` of `lib/openai.ts`: on upstream/parse failure, or a
parsed document whose `type` is falsy, return the fallback document; otherwise
the parsed document is returned unchanged (only the truthy-`type` check is
performed). -/
def outlineToEditorJson (outline : OutlineJson) (u : RenderUpstream) : EditorDoc :=
  match u with
  | .parsed d => if d.ty = "" then createFallbackEditorJson outline else d
  | _ => createFallbackEditorJson outline

/-! ### Format Resolver (`detectFormatFromMagicBytes` in `lib/openai.ts`) -/

/-- Lowercase hex digit. -/
def hexDigitChar (n : Nat) : Char :=
  if n < 10 then Char.ofNat (48 + n) else Char.ofNat (87 + n)

/-- Two lowercase hex digits of one byte (Node `Buffer.toString('hex')`). -/
def byteHex (b : Nat) : List Char :=
  [hexDigitChar (b % 256 / 16), hexDigitChar (b % 16)]

/-- `buffer.slice(0, 12).toString('hex')` as a character list. -/
def bufHex (buffer : List Nat) : List Char :=
  ((buffer.take 12).map byteHex).flatten

/-- `buffer.slice(4, 12).toString('ascii').toLowerCase()`: Node's `ascii`
decoding masks each byte to 7 bits. -/
def bufAscii (buffer : List Nat) : List Char :=
  ((buffer.drop 4).take 8).map (fun b => (Char.ofNat (b % 128)).toLower)

/-- The `mimeToExtension` lookup table of `transcribeAudio`. -/
def mimeToExtension (m : String) : Option String :=
  if m = "audio/webm" then some "webm"
  else if m = "audio/m4a" then some "m4a"
  else if m = "audio/mp4" then some "mp4"
  else if m = "audio/mpeg" then some "mp3"
  else if m = "audio/mp3" then some "mp3"
  else if m = "audio/wav" then some "wav"
  else if m = "audio/x-wav" then some "wav"
  else if m = "audio/flac" then some "flac"
  else if m = "audio/ogg" then some "ogg"
  else if m = "audio/oga" then some "oga"
  else none

/-- Resolved container format: `{ mime, extension }`. -/
structure DetectedFormat where
  mime : String
  extension : String
  deriving DecidableEq, Repr

/-- M4A signature: hex starts with `000000`, contains `66747970` (`ftyp`), and
contains `4d343420` (`M4A `) or the ascii slice contains `m4a`. -/
def m4aCond (buffer : List Nat) : Bool :=
  "000000".data.isPrefixOf (bufHex buffer)
    && containsSub "66747970".data (bufHex buffer)
    && (containsSub "4d343420".data (bufHex buffer)
        || containsSub "m4a".data (bufAscii buffer))

/-- MP4 signature: hex starts with `000000` and contains `ftyp`. -/
def mp4Cond (buffer : List Nat) : Bool :=
  "000000".data.isPrefixOf (bufHex buffer)
    && containsSub "66747970".data (bufHex buffer)

/-- WebM signature: EBML header `1a45dfa3`. -/
def webmCond (buffer : List Nat) : Bool :=
  "1a45dfa3".data.isPrefixOf (bufHex buffer)

/-- WAV signature: `RIFF` (`52494646`). -/
def wavCond (buffer : List Nat) : Bool :=
  "52494646".data.isPrefixOf (bufHex buffer)

/-- MP3 signature: frame sync `fffb` or `ID3` tag (`494433`). -/
def mp3Cond (buffer : List Nat) : Bool :=
  "fffb".data.isPrefixOf (bufHex buffer)
    || "494433".data.isPrefixOf (bufHex buffer)

/-- Some magic-number signature matches the buffer's 12-byte prefix. -/
def magicMatches (buffer : List Nat) : Bool :=
  m4aCond buffer || mp4Cond buffer || webmCond buffer
    || wavCond buffer || mp3Cond buffer

/-- `detectFormatFromMagicBytes` of `lib/openai.ts` (closure inside
`transcribeAudio`; the captured declared `mime` is passed explicitly).
Buffers shorter than 12 bytes resolve to the webm default; otherwise the
signature chain is tried in source order, and if nothing matches the declared
type is returned with an extension derived as
`mimeToExtension[mime.toLowerCase()] || mime.split('/')[1] || 'webm'`. -/
def detectFormatFromMagicBytes (buffer : List Nat) (mime : String) : DetectedFormat :=
  if buffer.length < 12 then { mime := "audio/webm", extension := "webm" }
  else if m4aCond buffer then { mime := "audio/m4a", extension := "m4a" }
  else if mp4Cond buffer then { mime := "audio/mp4", extension := "mp4" }
  else if webmCond buffer then { mime := "audio/webm", extension := "webm" }
  else if wavCond buffer then { mime := "audio/wav", extension := "wav" }
  else if mp3Cond buffer then { mime := "audio/mpeg", extension := "mp3" }
  else
    { mime := mime
      extension :=
        jsOrString (mimeToExtension (jsToLower mime))
          (jsOrString ((jsSplitSlash mime).get? 1) "webm") }

/-! ### Transcription Adapter (`transcribeAudio` in `lib/openai.ts`) -/

/-- One raw Whisper segment as received from the API; `start`, `stop` (the
JSON field `end`, a Lean keyword) and `text` may each be absent. -/
structure RawSegment where
  start : Option Int
  stop : Option Int
  text : Option String
  deriving DecidableEq, Repr

/-- A kept segment `{start, end, text}`. -/
structure TranscriptionSegment where
  start : Int
  stop : Int
  text : String
  deriving DecidableEq, Repr

/-- Whisper `verbose_json` response: full text plus an optional segment array
(the code checks `'segments' in response && Array.isArray(...)`). -/
structure WhisperResponse where
  text : String
  segments : Option (List RawSegment)
  deriving DecidableEq, Repr

/-- Outcome of the network call to the transcription endpoint. -/
inductive WhisperCall where
  | response (r : WhisperResponse)
  | failure
  deriving DecidableEq, Repr

/-- Final transcription value `{text, segments}`. -/
structure TranscriptionResult where
  text : String
  segments : List TranscriptionSegment
  deriving DecidableEq, Repr

/-- Errors surfaced by `transcribeAudio` (all are wrapped in
`InternalServerError` by the outer catch). -/
inductive TranscribeError where
  | tooLarge (size maxSize : Nat)
  | upstream
  deriving DecidableEq, Repr

/-- The 25 MiB ceiling (`25 * 1024 * 1024`). -/
def maxAudioSize : Nat := 25 * 1024 * 1024

/-- Segment extraction loop of `transcribeAudio`: keep a segment only when
`seg.start !== undefined && seg.end !== undefined && seg.text` (truthy, so
present and non-empty); everything else is skipped. -/
def extractSegments : Option (List RawSegment) → List TranscriptionSegment
  | none => []
  | some segs =>
    segs.filterMap (fun seg =>
      match seg.start, seg.stop, seg.text with
      | some a, some b, some t => if t = "" then none else some ⟨a, b, t⟩
      | _, _, _ => none)

/-- `transcribeAudio` of `lib/openai.ts`.  Returns the result together with a
flag recording whether the network call to the transcription endpoint was
made.  Control flow of the source: resolve the format from magic bytes, then
reject buffers over the size ceiling before the temp file is written and
before any network call; otherwise stage the file and call Whisper, eagerly
extracting well-formed segments. -/
def transcribeAudio (audioBuffer : List Nat) (mime : String) (net : WhisperCall) :
    Except TranscribeError TranscriptionResult × Bool :=
  let _detected := detectFormatFromMagicBytes audioBuffer mime
  if audioBuffer.length > maxAudioSize then
    (.error (.tooLarge audioBuffer.length maxAudioSize), false)
  else
    match net with
    | .failure => (.error .upstream, true)
    | .response r => (.ok { text := r.text, segments := extractSegments r.segments }, true)

/-! ### Throughput Guard (`checkRateLimit` in `lib/ratelimit.ts`) -/

/-- Outcome of the Upstash pipeline fetch: the request throwing, a non-ok
HTTP response, or an ok response whose `results[0]?.result` is either a number
or missing/non-numeric. -/
inductive RedisOutcome where
  | fetchThrow
  | notOk
  | okResult (count : Option Int)
  deriving DecidableEq, Repr

/-- `{ max, windowSec }`. -/
structure RateLimitConfig where
  max : Nat
  windowSec : Nat
  deriving DecidableEq, Repr

/-- Result of the guard: either the request is admitted (function returns
normally) or a `RateLimitError` is thrown. -/
inductive RateLimitResult where
  | admitted
  | rejected
  deriving DecidableEq, Repr

/-- `checkRateLimit` of `lib/ratelimit.ts`.  `configured` is whether both
Upstash environment variables are present (otherwise the guard is skipped).
A thrown fetch, a non-ok response, and a missing/non-numeric counter all fall
through to a normal return (fail open); only a numeric counter strictly above
`config.max` raises `RateLimitError`, which is re-thrown past the catch. -/
def checkRateLimit (configured : Bool) (outcome : RedisOutcome)
    (config : RateLimitConfig) : RateLimitResult :=
  if !configured then .admitted
  else
    match outcome with
    | .fetchThrow => .admitted
    | .notOk => .admitted
    | .okResult none => .admitted
    | .okResult (some c) => if c > (config.max : Int) then .rejected else .admitted

/-- The preset limiter table `rateLimits`. -/
def rateLimits : List (String × RateLimitConfig) :=
  [("presign", ⟨30, 60⟩), ("commit", ⟨15, 60⟩), ("search", ⟨60, 60⟩), ("regenerate", ⟨10, 60⟩)]

/-! ### Pipeline Orchestrator (`lib/server/process.ts`) -/

/-- A row of the `captures` table as read by `processCapture`. -/
structure CaptureRow where
  audio_path : Option String
  text_path : Option String
  language : Option String
  deriving DecidableEq, Repr

/-- Payload of a successful insert into the `notes` table. -/
structure NoteInsertRow where
  title : String
  outline_json : OutlineJson
  editor_json : EditorDoc
  tags : List Tag

/-- Pipeline errors: every throw site of `processCapture` is an
`InternalServerError` carrying a message. -/
inductive PErr where
  | internal (msg : String)

/-- `{ noteId }`. -/
structure ProcessResult where
  noteId : String
  deriving DecidableEq, Repr

/-- Outcomes of every external call `processCapture` makes, in program order.
The first eight drive the try block; the last four drive the catch block's
degraded recovery. -/
structure ProcessEnv where
  fetchCapture : Option CaptureRow
  audioDownload : Option (List Nat)
  whisper : WhisperCall
  transcriptInsertOk : Bool
  textDownload : Option String
  structureUpstream : StructureUpstream
  renderUpstream : RenderUpstream
  noteInsertId : Option String
  savedTranscriptText : Option String
  captureTextPath : Option String
  fallbackTextDownload : Option String
  fallbackNoteInsertId : Option String

/-- The `getMimeType` closure of `processCapture`: map the file extension of
the storage path, defaulting to `audio/webm`. -/
def getMimeType (path : String) : String :=
  let ext := jsToLower (((jsSplitSlash path).getD 0 path).data.reverse.takeWhile (· ≠ '.')
    |>.reverse |> String.mk)
  if ext = "webm" then "audio/webm"
  else if ext = "m4a" then "audio/m4a"
  else if ext = "mp4" then "audio/mp4"
  else if ext = "mp3" then "audio/mpeg"
  else if ext = "wav" then "audio/wav"
  else if ext = "flac" then "audio/flac"
  else if ext = "ogg" then "audio/ogg"
  else if ext = "oga" then "audio/oga"
  else "audio/webm"

/-- The try block of `processCapture`: fetch the capture, extract text (audio
download + transcription + transcript insert, or text download), structure,
render, and insert the note.  On success it returns the result together with
the note row that was written. -/
def processCaptureMain (_userId : String) (env : ProcessEnv) :
    Except PErr (ProcessResult × NoteInsertRow) := do
  let capture ← match env.fetchCapture with
    | none => .error (.internal "Capture not found")
    | some c => .ok c
  let text ←
    match capture.audio_path, capture.text_path with
    | some audioPath, _ => do
      -- audio processing path
      let buffer ← match env.audioDownload with
        | none => .error (.internal "Failed to download audio file")
        | some b => .ok b
      let mimeType :=
        match capture.language with
        | some l => if jsStartsWith l "audio/" then l else getMimeType audioPath
        | none => getMimeType audioPath
      let result ← match transcribeAudio buffer mimeType env.whisper with
        | (.ok r, _) => .ok r
        | (.error _, _) => .error (.internal "Failed to transcribe audio")
      if env.transcriptInsertOk then
        .ok result.text
      else
        .error (.internal "Failed to save transcript")
    | none, some _ => do
      -- text processing path (no transcript record)
      match env.textDownload with
      | none => .error (.internal "Failed to download text file")
      | some t => .ok t
    | none, none =>
      .error (.internal "Capture must have either audio_path or text_path")
  let outline := structureOutline text env.structureUpstream
  let editorJson := outlineToEditorJson outline env.renderUpstream
  let row : NoteInsertRow :=
    { title := outline.title
      outline_json := outline
      editor_json := editorJson
      tags := outline.tags }
  match env.noteInsertId with
  | none => .error (.internal "Failed to create note")
  | some id => .ok (⟨id⟩, row)

/-- The minimal editor document built by the catch block of `processCapture`:
a `Processing Failed` heading followed by the raw text. -/
def minimalFailedDoc (fallbackText : String) : EditorDoc :=
  { ty := "doc"
    content :=
      [ENode.heading 1 [ENode.text "Processing Failed"],
       ENode.paragraph [ENode.text fallbackText]] }

/-- The outline stored with a degraded-recovery note. -/
def failedOutline : OutlineJson :=
  { title := "Processing Failed"
    highlights := []
    insights := []
    open_questions := []
    next_steps := []
    tags := []
    lang := .en }

/-- The note row written by the degraded recovery. -/
def fallbackNoteRow (fallbackText : String) : NoteInsertRow :=
  { title := "Processing Failed"
    outline_json := failedOutline
    editor_json := minimalFailedDoc fallbackText
    tags := [] }

/-- `processCapture` of `lib/server/process.ts`.  Returns the pipeline result
together with the list of note rows successfully written.  When the try block
throws, the catch block recovers the raw text — the saved transcript if one
exists, otherwise the capture's text file — and, only when that text is
non-empty and its insert succeeds, persists a minimal note and returns its id;
in every other case it throws `Failed to process capture`. -/
def processCapture (userId : String) (env : ProcessEnv) :
    Except PErr ProcessResult × List NoteInsertRow :=
  match processCaptureMain userId env with
  | .ok (r, row) => (.ok r, [row])
  | .error _ =>
    let fallbackText :=
      match env.savedTranscriptText with
      | some t => t
      | none =>
        match env.captureTextPath, env.fallbackTextDownload with
        | some _, some t => t
        | _, _ => ""
    if fallbackText ≠ "" then
      match env.fallbackNoteInsertId with
      | some id => (.ok ⟨id⟩, [fallbackNoteRow fallbackText])
      | none => (.error (.internal "Failed to process capture"), [])
    else
      (.error (.internal "Failed to process capture"), [])

/-! ### Commit route (`app/api/capture/commit/route.ts`) -/

/-- Validated `commitBodySchema` body. -/
structure CommitBody where
  storageKey : String
  duration_s : Option Nat
  mime : Option String
  deriving DecidableEq, Repr

/-- Body of the HTTP response of the commit route. -/
inductive CommitResponseBody where
  | success (captureId noteId : String)
  | queued (captureId : String)
  | problem (msg : String)
  deriving DecidableEq, Repr

/-- `POST /api/capture/commit` after auth, rate limiting and body validation
have succeeded.  `captureInsertId` is the outcome of the capture-row insert
and `pipeline` the outcome `processCapture` would produce.  The returned flag
records whether `processCapture` was invoked during the request: for
`duration_s <= 120` it is awaited and its result shapes the 200 response; for
longer audio it is still invoked inline within the request (merely not
awaited, its failure only logged) and a 202 `queued` response is returned
regardless of its outcome. -/
def commitPOST (body : CommitBody) (captureInsertId : Option String)
    (pipeline : Except PErr ProcessResult) :
    (Nat × CommitResponseBody) × Bool :=
  match captureInsertId with
  | none => ((500, .problem "Failed to create capture record"), false)
  | some captureId =>
    let duration := body.duration_s.getD 0
    if duration ≤ 120 then
      match pipeline with
      | .ok r => ((200, .success captureId r.noteId), true)
      | .error (.internal m) => ((500, .problem m), true)
    else
      ((202, .queued captureId), true)

/-! ### Note creation route (`app/api/notes/route.ts`) -/

/-- The default editor document built by `POST /api/notes`: a single
paragraph when `content_text` is provided and truthy, the empty document
otherwise (including when it is the empty string, which is falsy). -/
def notesPostEditorJson (content_text : Option String) : EditorDoc :=
  match content_text with
  | some s =>
    if s = "" then { ty := "doc", content := [] }
    else { ty := "doc", content := [ENode.paragraph [ENode.text s]] }
  | none => { ty := "doc", content := [] }

/-! ### Note Aggregator / text pipeline

Modelled from the spec: `processTextToNote` (called from
`app/api/notes/[id]/text/commit/route.ts`, implemented in the repository's
`lib/server/process-new.ts`, which is absent from the sources).  The spec
defines it as: combine the existing note's `content_text` with the new
contribution's text in arrival order joined by a blank-line separator, with
empty or absent existing text a no-op prefix; compute a fallback title (first
~100 characters of the first non-empty merged segment) used only when the
note has no title. -/

/-- Note state relevant to the text pipeline. -/
structure NoteState where
  title : Option String
  content_text : Option String
  deriving DecidableEq, Repr

/-- Modelled from the spec: the Note Aggregator's merge — existing text and
new text joined by a blank line, empty/absent existing text a no-op prefix. -/
def mergeContentText (existing : Option String) (newText : String) : String :=
  match existing with
  | none => newText
  | some t => if t = "" then newText else t ++ "\n\n" ++ newText

/-- Modelled from the spec: the fallback title — the first ~100 characters of
the first non-empty merged segment (segments delimited by blank lines). -/
def fallbackTitle (merged : String) : String :=
  String.mk ((((splitOnChar '\n' merged.data).filter (· ≠ [])).getD 0 []).take 100)

/-- Modelled from the spec: `processTextToNote`'s effect on the note row —
merge the new text into `content_text`; keep the title when the note already
has one, otherwise derive the fallback title from the merged text. -/
def processTextToNote (note : NoteState) (newText : String) : NoteState :=
  let merged := mergeContentText note.content_text newText
  { title :=
      match note.title with
      | some t => some t
      | none => some (fallbackTitle merged)
    content_text := some merged }

/-! ### Derived predicates used by the verification statements -/

/-- The upstream outcome of `structureOutline` is one of the failure modes
absorbed by its catch block. -/
def isStructureFailure : StructureUpstream → Bool
  | .valid _ => false
  | _ => true

/-- Every item of a bullet list, read as its concatenated text, ends with a
question mark. -/
def itemsEndWithQuestion (items : List ENode) : Bool :=
  items.all (fun it => jsEndsWithQuestion (textOf it))

/-- Scan a top-level node sequence: wherever a level-2 heading titled
`Open Questions` is immediately followed by a bullet list, all of that list's
items must end with `'?'`. -/
def openQuestionsSeqOk : List ENode → Bool
  | [] => true
  | a :: rest =>
    (match a, rest with
     | .heading lvl hc, .bulletList items :: _ =>
       if lvl = 2 ∧ textOfList hc = "Open Questions" then itemsEndWithQuestion items
       else true
     | _, _ => true)
    && openQuestionsSeqOk rest

/-- Every `Open Questions` item of a rendered document ends with `'?'`. -/
def openQuestionsOk (d : EditorDoc) : Bool :=
  openQuestionsSeqOk d.content

/-! ## Claims -/

/-- C5 (amended): `detectFormatFromMagicBytes` is total and deterministic by
construction; for every buffer of at least 12 bytes whose prefix matches no
magic-number signature, the resolved type is the caller-declared type
unchanged. -/
theorem detect_format_unmatched_yields_declared (buffer : List Nat) (mime : String)
    (h12 : 12 ≤ buffer.length) (hno : magicMatches buffer = false) :
    (detectFormatFromMagicBytes buffer mime).mime = mime := by
  have hlt : ¬ buffer.length < 12 := by omega
  unfold magicMatches at hno
  simp only [Bool.or_eq_false_iff] at hno
  obtain ⟨⟨⟨⟨h1, h2⟩, h3⟩, h4⟩, h5⟩ := hno
  unfold detectFormatFromMagicBytes
  simp [hlt, h1, h2, h3, h4, h5]

/-- C5 witness: twelve `0x11` bytes match no signature and resolve to the
declared `audio/wav`. -/
theorem detect_format_unmatched_yields_declared_witness :
    12 ≤ (List.replicate 12 17).length ∧
    magicMatches (List.replicate 12 17) = false ∧
    (detectFormatFromMagicBytes (List.replicate 12 17) "audio/wav").mime = "audio/wav" :=
  ⟨by decide, by decide,
   detect_format_unmatched_yields_declared (List.replicate 12 17) "audio/wav"
     (by decide) (by decide)⟩

/-- C5 counterexample: the empty buffer matches no signature, yet the resolver
returns the `audio/webm` default instead of the declared `audio/wav` — the
under-12-byte branch ignores the caller-declared type. -/
theorem detect_format_short_buffer_ignores_declared :
    magicMatches [] = false ∧
    detectFormatFromMagicBytes [] "audio/wav" = ⟨"audio/webm", "webm"⟩ ∧
    ("audio/webm" : String) ≠ "audio/wav" :=
  ⟨by decide, by decide, by decide⟩

/-- C7: every buffer strictly above the 25 MiB ceiling makes `transcribeAudio`
fail with the descriptive size error, and the network call to the
transcription endpoint is never made. -/
theorem transcribe_oversize_fails_before_network (audioBuffer : List Nat)
    (mime : String) (net : WhisperCall) (h : audioBuffer.length > maxAudioSize) :
    transcribeAudio audioBuffer mime net =
      (.error (.tooLarge audioBuffer.length maxAudioSize), false) := by
  unfold transcribeAudio
  simp [h]

/-- C7 witness: a buffer of `25 MiB + 1` zero bytes is rejected without a
network call. -/
theorem transcribe_oversize_fails_before_network_witness :
    (List.replicate (maxAudioSize + 1) 0).length > maxAudioSize ∧
    transcribeAudio (List.replicate (maxAudioSize + 1) 0) "audio/webm" .failure =
      (.error (.tooLarge (List.replicate (maxAudioSize + 1) 0).length maxAudioSize), false) := by
  have h : (List.replicate (maxAudioSize + 1) (0 : Nat)).length > maxAudioSize := by
    simp
  exact ⟨h, transcribe_oversize_fails_before_network _ _ _ h⟩

/-- C9: `checkRateLimit` rejects (throws `RateLimitError`) exactly when the
store is configured and the fetched window counter is a number strictly above
the configured ceiling; every read/write failure (thrown fetch, non-ok
response, missing counter) admits the request. -/
theorem checkRateLimit_rejects_iff (configured : Bool) (outcome : RedisOutcome)
    (config : RateLimitConfig) :
    checkRateLimit configured outcome config = .rejected ↔
      configured = true ∧
        ∃ c : Int, outcome = .okResult (some c) ∧ (config.max : Int) < c := by
  unfold checkRateLimit
  cases configured with
  | false => simp
  | true =>
    rcases outcome with _ | _ | cnt
    · simp
    · simp
    · rcases cnt with _ | c
      · simp
      · by_cases hc : c > (config.max : Int) <;> simp [hc]

/-- C10: on a successful transcription call, the returned segment list is
exactly the filtered upstream list: every returned segment has non-empty text
and originates from an upstream segment whose `start`, `end` and `text` were
all present; malformed upstream segments are dropped without an error. -/
theorem transcribe_segments_filtered (audioBuffer : List Nat) (mime : String)
    (r : WhisperResponse) (h : ¬ audioBuffer.length > maxAudioSize) :
    (transcribeAudio audioBuffer mime (.response r)).1 =
      .ok { text := r.text, segments := extractSegments r.segments } ∧
    ∀ s ∈ extractSegments r.segments, s.text ≠ "" ∧
      ∃ raw ∈ r.segments.getD [],
        raw.start = some s.start ∧ raw.stop = some s.stop ∧ raw.text = some s.text := by
  constructor
  · unfold transcribeAudio
    simp [h]
  · intro s hs
    cases hr : r.segments with
    | none => rw [hr] at hs; simp [extractSegments] at hs
    | some segs =>
      rw [hr] at hs
      unfold extractSegments at hs
      obtain ⟨raw, hraw, heq⟩ := List.mem_filterMap.mp hs
      rcases raw with ⟨st, en, tx⟩
      rcases st with _ | a <;> rcases en with _ | b <;> rcases tx with _ | t
      all_goals try exact Option.noConfusion heq
      dsimp only at heq
      by_cases ht : t = ""
      · rw [if_pos ht] at heq
        exact Option.noConfusion heq
      · rw [if_neg ht] at heq
        obtain rfl := Option.some.inj heq
        exact ⟨ht, ⟨⟨some a, some b, some t⟩, by simpa [hr] using hraw, rfl, rfl, rfl⟩⟩

/-- C10 witness: a response mixing well-formed and malformed segments keeps
only the well-formed one. -/
theorem transcribe_segments_filtered_witness :
    ¬ ([] : List Nat).length > maxAudioSize ∧
    ((transcribeAudio [] "audio/webm"
        (.response ⟨"hi", some [⟨some 0, some 2, some "hi"⟩,
                                ⟨none, some 3, some "x"⟩,
                                ⟨some 3, some 4, some ""⟩,
                                ⟨some 4, some 5, none⟩]⟩)).1 =
      .ok { text := "hi",
            segments := extractSegments (some [⟨some 0, some 2, some "hi"⟩,
                                               ⟨none, some 3, some "x"⟩,
                                               ⟨some 3, some 4, some ""⟩,
                                               ⟨some 4, some 5, none⟩]) } ∧
      ∀ s ∈ extractSegments (some [⟨some 0, some 2, some "hi"⟩,
                                   ⟨none, some 3, some "x"⟩,
                                   ⟨some 3, some 4, some ""⟩,
                                   ⟨some 4, some 5, none⟩]),
        s.text ≠ "" ∧
        ∃ raw ∈ (some [⟨some 0, some 2, some "hi"⟩,
                       ⟨none, some 3, some "x"⟩,
                       ⟨some 3, some 4, some ""⟩,
                       ⟨some 4, some 5, none⟩] : Option (List RawSegment)).getD [],
          raw.start = some s.start ∧ raw.stop = some s.stop ∧ raw.text = some s.text) :=
  ⟨by decide, transcribe_segments_filtered [] "audio/webm" _ (by decide)⟩

/-- C2 (amended): `structureOutline` absorbs every upstream failure
(API error, empty content, bad JSON, schema rejection) into the fixed
fallback outline, whose title is the non-null placeholder `Untitled Note`,
whose insights, open questions and next steps are empty, whose tag set is
empty — but whose highlights are the singleton
`["Transcript processing failed"]`, not an empty array. -/
theorem structureOutline_failure_returns_fallback (t : String) (u : StructureUpstream)
    (h : isStructureFailure u = true) :
    structureOutline t u = fallbackOutline ∧
    fallbackOutline.title = "Untitled Note" ∧
    fallbackOutline.insights = [] ∧
    fallbackOutline.open_questions = [] ∧
    fallbackOutline.next_steps = [] ∧
    fallbackOutline.tags = [] ∧
    fallbackOutline.highlights = ["Transcript processing failed"] := by
  refine ⟨?_, rfl, rfl, rfl, rfl, rfl, rfl⟩
  cases u <;> first
    | rfl
    | exact absurd h (by simp [isStructureFailure])

/-- C2 witness: an upstream API error yields the fallback outline. -/
theorem structureOutline_failure_returns_fallback_witness :
    structureOutline "some transcript" .apiError = fallbackOutline ∧
    fallbackOutline.title = "Untitled Note" ∧
    fallbackOutline.insights = [] ∧
    fallbackOutline.open_questions = [] ∧
    fallbackOutline.next_steps = [] ∧
    fallbackOutline.tags = [] ∧
    fallbackOutline.highlights = ["Transcript processing failed"] :=
  structureOutline_failure_returns_fallback "some transcript" .apiError (by decide)

/-- C2 counterexample: the fallback outline's `highlights` is not an empty
array, contradicting the claim that all four list fields are empty. -/
theorem structureOutline_fallback_highlights_not_empty :
    (structureOutline "" .apiError).highlights = ["Transcript processing failed"] ∧
    (["Transcript processing failed"] : List String) ≠ [] :=
  ⟨rfl, by decide⟩

/-- C1 (amended, modelled from the spec): committing two text files with
non-empty first text to a note whose `content_text` is empty or absent yields
`content_text = text1 ++ "\n\n" ++ text2` and leaves an already-set title
unchanged. -/
theorem processTextToNote_two_sequential_commits (note : NoteState) (ttl t1 t2 : String)
    (htitle : note.title = some ttl)
    (hcontent : note.content_text = none ∨ note.content_text = some "")
    (h1 : t1 ≠ "") :
    (processTextToNote (processTextToNote note t1) t2).content_text =
      some (t1 ++ "\n\n" ++ t2) ∧
    (processTextToNote (processTextToNote note t1) t2).title = some ttl := by
  rcases hcontent with hc | hc <;>
    simp [processTextToNote, mergeContentText, htitle, hc, h1]

/-- C1 witness: two concrete commits onto a titled empty note. -/
theorem processTextToNote_two_sequential_commits_witness :
    (processTextToNote (processTextToNote ⟨some "My Title", none⟩ "alpha") "beta").content_text =
      some ("alpha" ++ "\n\n" ++ "beta") ∧
    (processTextToNote (processTextToNote ⟨some "My Title", none⟩ "alpha") "beta").title =
      some "My Title" :=
  processTextToNote_two_sequential_commits ⟨some "My Title", none⟩ "My Title" "alpha" "beta"
    rfl (Or.inl rfl) (by decide)

/-- C1 counterexample: when the first committed file is empty, the merged
content is just the second text — the promised
`text1 ++ "\n\n" ++ text2` shape fails, because the empty first merge result
is itself treated as a no-op prefix by the second merge. -/
theorem processTextToNote_empty_first_file_counterexample :
    (processTextToNote (processTextToNote ⟨some "T", none⟩ "") "b").content_text = some "b" ∧
    some "b" ≠ some ("" ++ "\n\n" ++ "b") :=
  ⟨rfl, by decide⟩

/-- C6: once the capture row is created, `processCapture` is invoked within
the triggering request whatever the declared duration; a declared duration of
at most 120 seconds yields, when the pipeline succeeds, a 200 response with
`captureId` and `noteId`, while a longer duration yields a 202 `queued`
response carrying only `captureId` — the pipeline is invoked either way. -/
theorem commitPOST_inline_pipeline (body : CommitBody) (cid : String)
    (pipeline : Except PErr ProcessResult) :
    (commitPOST body (some cid) pipeline).2 = true ∧
    (∀ nid, body.duration_s.getD 0 ≤ 120 → pipeline = .ok ⟨nid⟩ →
      (commitPOST body (some cid) pipeline).1 = (200, .success cid nid)) ∧
    (body.duration_s.getD 0 > 120 →
      (commitPOST body (some cid) pipeline).1 = (202, .queued cid)) := by
  refine ⟨?_, ?_, ?_⟩
  · unfold commitPOST
    by_cases hd : body.duration_s.getD 0 ≤ 120
    · cases pipeline with
      | ok r => simp [hd]
      | error e => cases e with
        | internal m => simp [hd]
    · simp [hd]
  · intro nid hle hok
    subst hok
    unfold commitPOST
    simp [hle]
  · intro hgt
    have hd : ¬ body.duration_s.getD 0 ≤ 120 := by omega
    unfold commitPOST
    simp [hd]

/-- C6 witness: a 60-second commit returns 200 with both ids; a 600-second
commit returns 202 `queued` while the pipeline is still invoked. -/
theorem commitPOST_inline_pipeline_witness :
    (commitPOST ⟨"k", some 60, none⟩ (some "c1") (.ok ⟨"n1"⟩)).1 =
      (200, .success "c1" "n1") ∧
    (commitPOST ⟨"k", some 600, none⟩ (some "c1") (.ok ⟨"n1"⟩)).1 =
      (202, .queued "c1") ∧
    (commitPOST ⟨"k", some 600, none⟩ (some "c1") (.ok ⟨"n1"⟩)).2 = true :=
  ⟨(commitPOST_inline_pipeline ⟨"k", some 60, none⟩ "c1" (.ok ⟨"n1"⟩)).2.1 "n1"
      (by decide) rfl,
   (commitPOST_inline_pipeline ⟨"k", some 600, none⟩ "c1" (.ok ⟨"n1"⟩)).2.2 (by decide),
   (commitPOST_inline_pipeline ⟨"k", some 600, none⟩ "c1" (.ok ⟨"n1"⟩)).1⟩

/-- C4 (amended): when the pipeline's try block fails, a transcript with
non-empty text was saved, and the recovery insert succeeds, `processCapture`
persists exactly one note — titled `Processing Failed`, whose rich document is
the `Processing Failed` heading followed by the raw transcript text — and
returns that note's id instead of an error. -/
theorem processCapture_degraded_recovery (userId : String) (env : ProcessEnv)
    (e : PErr) (t nid : String)
    (hfail : processCaptureMain userId env = .error e)
    (ht : env.savedTranscriptText = some t)
    (hne : t ≠ "")
    (hins : env.fallbackNoteInsertId = some nid) :
    processCapture userId env = (.ok ⟨nid⟩, [fallbackNoteRow t]) ∧
    (fallbackNoteRow t).editor_json =
      ⟨"doc", [ENode.heading 1 [ENode.text "Processing Failed"],
               ENode.paragraph [ENode.text t]]⟩ ∧
    (fallbackNoteRow t).title = "Processing Failed" := by
  refine ⟨?_, rfl, rfl⟩
  unfold processCapture
  rw [hfail]
  simp [ht, hne, hins]

/-- C4 witness: a capture that is not found fails the try block; the saved
transcript `hello` is recovered into a fallback note with id `n1`. -/
theorem processCapture_degraded_recovery_witness :
    processCapture "u"
      ⟨none, none, .failure, false, none, .apiError, .apiError, none,
       some "hello", none, none, some "n1"⟩ =
      (.ok ⟨"n1"⟩, [fallbackNoteRow "hello"]) ∧
    (fallbackNoteRow "hello").editor_json =
      ⟨"doc", [ENode.heading 1 [ENode.text "Processing Failed"],
               ENode.paragraph [ENode.text "hello"]]⟩ ∧
    (fallbackNoteRow "hello").title = "Processing Failed" :=
  processCapture_degraded_recovery "u"
    ⟨none, none, .failure, false, none, .apiError, .apiError, none,
     some "hello", none, none, some "n1"⟩
    (.internal "Capture not found") "hello" "n1" rfl rfl (by decide) rfl

/-- C4 counterexample: the try block fails after a transcript was saved —
with empty text (the note-insert step fails, the transcript row exists) — and
`processCapture` persists nothing and surfaces a bare error instead of a
fallback note: the recovery is gated on the recovered text being non-empty. -/
theorem processCapture_empty_transcript_counterexample :
    processCaptureMain "u"
      ⟨some ⟨some "a.webm", none, none⟩, some [], .response ⟨"", none⟩, true,
       none, .apiError, .apiError, none, some "", none, none, some "n9"⟩ =
      .error (.internal "Failed to create note") ∧
    processCapture "u"
      ⟨some ⟨some "a.webm", none, none⟩, some [], .response ⟨"", none⟩, true,
       none, .apiError, .apiError, none, some "", none, none, some "n9"⟩ =
      (.error (.internal "Failed to process capture"), []) :=
  ⟨rfl, rfl⟩

/-! ### Helper lemmas about the fallback renderer -/

theorem validNodes_append (a b : List ENode) :
    validNodes (a ++ b) = (validNodes a && validNodes b) := by
  induction a with
  | nil => simp [validNodes]
  | cons n rest ih => simp [validNodes, ih, Bool.and_assoc]

theorem validNodes_listItems (xs : List String) :
    validNodes (xs.map (fun h =>
      ENode.listItem [ENode.paragraph [ENode.text h]])) = true := by
  induction xs with
  | nil => rfl
  | cons x rest ih => simp [validNodes, validNode, ih]

theorem validNodes_taskItems (xs : List NextStep) :
    validNodes (xs.map (fun step =>
      ENode.taskItem false [ENode.paragraph [ENode.text step.text]])) = true := by
  induction xs with
  | nil => rfl
  | cons x rest ih => simp [validNodes, validNode, ih]

theorem validNodes_ite (c : Prop) [Decidable c] (l : List ENode)
    (h : validNodes l = true) : validNodes (if c then l else []) = true := by
  split
  · exact h
  · rfl

theorem jsEndsWithQuestion_coerce (q : String) :
    jsEndsWithQuestion (coerceQuestion q) = true := by
  unfold coerceQuestion
  by_cases h : jsEndsWithQuestion q = true
  · rw [if_pos h]
    exact h
  · rw [if_neg h]
    unfold jsEndsWithQuestion
    simp

theorem itemsEndWithQuestion_coerced (qs : List String) :
    itemsEndWithQuestion (qs.map (fun q =>
      ENode.listItem [ENode.paragraph [ENode.text (coerceQuestion q)]])) = true := by
  unfold itemsEndWithQuestion
  rw [List.all_eq_true]
  intro it hit
  obtain ⟨q, _, rfl⟩ := List.mem_map.mp hit
  show jsEndsWithQuestion (textOf (ENode.listItem
    [ENode.paragraph [ENode.text (coerceQuestion q)]])) = true
  have htext : textOf (ENode.listItem
      [ENode.paragraph [ENode.text (coerceQuestion q)]]) =
      (coerceQuestion q ++ "") ++ "" := rfl
  rw [htext]
  have hdata : ((coerceQuestion q ++ "") ++ "").data = (coerceQuestion q).data := by
    simp
  unfold jsEndsWithQuestion
  rw [hdata]
  exact jsEndsWithQuestion_coerce q

theorem itemsEndWithQuestion_coerced_cons (q : String) (qs : List String) :
    itemsEndWithQuestion (ENode.listItem [ENode.paragraph
        [ENode.text (coerceQuestion q)]] ::
      qs.map (fun x => ENode.listItem [ENode.paragraph
        [ENode.text (coerceQuestion x)]])) = true := by
  simpa [List.map] using itemsEndWithQuestion_coerced (q :: qs)

theorem validNodes_coercedItems (xs : List String) :
    validNodes (xs.map (fun q =>
      ENode.listItem [ENode.paragraph [ENode.text (coerceQuestion q)]])) = true := by
  induction xs with
  | nil => rfl
  | cons x rest ih => simp [validNodes, validNode, ih]

/-- C8 (amended): every `Open Questions` item of a document produced by the
fallback renderer ends with `'?'` — for every outline, including items that
did not already end with one.  (The primary rendering path returns accepted
upstream output unchanged; see the companion counterexample.) -/
theorem fallback_renderer_open_questions_end_with_qm (o : OutlineJson) :
    openQuestionsOk (createFallbackEditorJson o) = true := by
  rcases o with ⟨title, hl, ins, oq, ns, tags, lang⟩
  unfold openQuestionsOk createFallbackEditorJson
  dsimp only
  rcases hl with _ | ⟨h1, hrest⟩ <;> rcases ins with _ | ⟨i1, irest⟩ <;>
    rcases oq with _ | ⟨q1, qrest⟩ <;> rcases ns with _ | ⟨n1, nrest⟩ <;>
    simp [openQuestionsSeqOk, textOfList, textOf,
      itemsEndWithQuestion_coerced_cons]

/-- C8 counterexample: a schema-shaped document whose `Open Questions` item
`why` lacks the question mark passes the primary path's truthy-`type` check
and is returned unchanged, so the rendered document violates the property —
the `'?'` coercion exists only in the fallback renderer. -/
theorem primary_renderer_open_questions_not_coerced :
    outlineToEditorJson fallbackOutline
      (.parsed ⟨"doc", [ENode.heading 2 [ENode.text "Open Questions"],
                        ENode.bulletList [ENode.listItem
                          [ENode.paragraph [ENode.text "why"]]]]⟩) =
      ⟨"doc", [ENode.heading 2 [ENode.text "Open Questions"],
               ENode.bulletList [ENode.listItem
                 [ENode.paragraph [ENode.text "why"]]]]⟩ ∧
    openQuestionsOk
      ⟨"doc", [ENode.heading 2 [ENode.text "Open Questions"],
               ENode.bulletList [ENode.listItem
                 [ENode.paragraph [ENode.text "why"]]]]⟩ = false := by
  constructor
  · simp [outlineToEditorJson]
  · rfl

/-- C3 (amended): every deterministically constructed editor document — the
fallback renderer's output for any outline, the `POST /api/notes` default
document for any (possibly absent) `content_text`, and the degraded-recovery
document — is a valid rich-document tree over the fixed node vocabulary, and
the renderer always returns a document with a non-empty root `type` (never
null); validity of the primary (LLM) path's accepted output is, however, not
guaranteed beyond that `type` check (see the companion counterexample). -/
theorem persisted_editor_docs_valid :
    (∀ (o : OutlineJson) (u : RenderUpstream), (outlineToEditorJson o u).ty ≠ "") ∧
    (∀ o : OutlineJson, validDoc (createFallbackEditorJson o) = true) ∧
    (∀ ct : Option String, validDoc (notesPostEditorJson ct) = true) ∧
    (∀ t : String, validDoc (minimalFailedDoc t) = true) := by
  have hfb : ∀ o : OutlineJson, validDoc (createFallbackEditorJson o) = true := by
    intro o
    unfold validDoc createFallbackEditorJson
    dsimp only
    rw [Bool.and_eq_true]
    refine ⟨by simp, ?_⟩
    simp only [validNodes_append, Bool.and_eq_true]
    refine ⟨⟨⟨⟨?_, ?_⟩, ?_⟩, ?_⟩, ?_⟩
    · simp [validNodes, validNode]
    · exact validNodes_ite _ _ (by simp [validNodes, validNode, validNodes_listItems])
    · exact validNodes_ite _ _ (by simp [validNodes, validNode, validNodes_listItems])
    · exact validNodes_ite _ _ (by simp [validNodes, validNode, validNodes_coercedItems])
    · exact validNodes_ite _ _ (by simp [validNodes, validNode, validNodes_taskItems])
  refine ⟨?_, hfb, ?_, ?_⟩
  · intro o u
    cases u with
    | parsed d =>
      by_cases h : d.ty = ""
      · simp [outlineToEditorJson, h, createFallbackEditorJson]
      · simp [outlineToEditorJson, h]
    | apiError => simp [outlineToEditorJson, createFallbackEditorJson]
    | noContent => simp [outlineToEditorJson, createFallbackEditorJson]
    | badJson => simp [outlineToEditorJson, createFallbackEditorJson]
  · intro ct
    cases ct with
    | none => rfl
    | some s =>
      by_cases h : s = "" <;>
        simp [notesPostEditorJson, h, validDoc, validNodes, validNode]
  · intro t
    rfl

/-- C3 counterexample: a parsed upstream document with a truthy but
out-of-vocabulary root `type` and an out-of-vocabulary child passes the
primary path's check and is returned (hence persisted) as is, so persisted
`editor_json` is not always a valid tree over the fixed vocabulary. -/
theorem primary_renderer_accepts_invalid_tree :
    outlineToEditorJson fallbackOutline
      (.parsed ⟨"banana", [ENode.other "widget" []]⟩) =
      ⟨"banana", [ENode.other "widget" []]⟩ ∧
    validDoc ⟨"banana", [ENode.other "widget" []]⟩ = false := by
  constructor
  · simp [outlineToEditorJson]
  · rfl
